import Mathlib

/-!
Shallow embedding of the corexia-agents core: the regime classifier and
confluence scorer (`matrix_scanner/app.py`), drift detector and regime
archive summaries (`matrix_scanner/regime_archive.py`, `app/market/spine.py`,
`app/market/similarity.py`), the agent layer (`app/agents/*.py`,
`app/config.py`), the risk gate (`app/execution/risk.py`) and the cycle
orchestrator (`app/worker.py`).

Python dictionaries with possibly-missing string values are modelled as
`Option String` fields; Python floats as `ℚ`; `dict.get(k, d)` as
`Option.getD`.  Python `round` (banker's rounding, ties to even) is
`pyRoundInt` / `roundTo`.
-/

/-- Python `str(x)` of an `Option String` value: `None` prints as "None". -/
def pyStr (o : Option String) : String :=
  match o with
  | none => "None"
  | some s => s

/-- Python `round(q)` to an integer: nearest, ties to even (banker's rounding). -/
def pyRoundInt (q : ℚ) : ℤ :=
  let f := ⌊q⌋
  let r := q - (f : ℚ)
  if r < 1/2 then f
  else if 1/2 < r then f + 1
  else if f % 2 = 0 then f else f + 1

/-- Python `round(q, d)`: round to `d` decimal places, ties to even. -/
def roundTo (d : ℕ) (q : ℚ) : ℚ :=
  ((pyRoundInt (q * 10 ^ d) : ℚ)) / 10 ^ d

/-- Python `f"{q:.1%}"` for a non-negative value: percentage with one decimal. -/
def formatPct1 (q : ℚ) : String :=
  let n := pyRoundInt (q * 1000)
  let a := n / 10
  let b := n % 10
  s!"{a}.{b}%"

/-- Python `f"{q:.0%}"` for a non-negative value: percentage with no decimals. -/
def formatPct0 (q : ℚ) : String :=
  let n := pyRoundInt (q * 100)
  s!"{n}%"

/-- Python `repr` of a one-decimal float such as `60.0` or `45.5` (the shape
`round(x, 1)` produces), used inside f-strings. -/
def qRepr1 (q : ℚ) : String :=
  let n := pyRoundInt (q * 10)
  let a := n / 10
  let b := n % 10
  s!"{a}.{b}"

/-- Helper for `strContains`: is `pat` an infix of the character list? -/
def charsInfix (pat : List Char) : List Char → Bool
  | [] => pat.isEmpty
  | c :: cs => pat.isPrefixOf (c :: cs) || charsInfix pat cs

/-- Python `"pat" in s` substring test. -/
def strContains (s pat : String) : Bool :=
  charsInfix pat.toList s.toList

/-- Python `s.lower()` for the ASCII labels used here. -/
def strLower (s : String) : String :=
  ⟨s.data.map Char.toLower⟩

/-!
## Regime classifier (`matrix_scanner/app.py`, `determine_primary_state`)

The inputs `determine_primary_state` reads off the scan-result dictionary:
`market_states.long` / `market_states.mid` (multi-horizon trend labels),
`layers.ma_system.regime` and `.signal`, the technical layer's
`structure.balance_state`, `bollinger_squeeze` and `volume.climax_detected`
flags, and the `touch_rank` that the source recomputes through
`TechnicalAnalyzer._analyze_balance_zones` (an out-of-scope indicator;
here it is an input field).  Missing dictionary entries are `none`;
boolean `.get(…, False)` lookups are plain `Bool` fields (missing ≡ false).
-/

structure ScanResult where
  horizon_long : Option String
  horizon_mid : Option String
  ma_regime : Option String
  ma_signal : Option String
  balance_state : Option String
  bollinger_squeeze : Bool
  climax_detected : Bool
  touch_rank : Option String
deriving DecidableEq

/-- `fatigue = touch_rank and "Fourth" in touch_rank` (Python truthiness:
`None` and the empty string are falsy). -/
def touchFatigue (r : ScanResult) : Bool :=
  match r.touch_rank with
  | none => false
  | some s => !(s == "") && strContains s "Fourth"

/-- The STRESSED trigger: touch-rank fatigue, or volume climax together with
a breakout/breakdown balance state. -/
def stressedCond (r : ScanResult) : Bool :=
  touchFatigue r ||
    (r.climax_detected &&
      (r.balance_state == some "breakout_up" || r.balance_state == some "breakdown_down"))

/-- `htf_aligned`: long and mid horizons agree and are directional. -/
def htfAligned (r : ScanResult) : Bool :=
  r.horizon_long == r.horizon_mid &&
    (r.horizon_long == some "Bullish" || r.horizon_long == some "Bearish")

/-- `price_extended`: balance state is a breakout or breakdown. -/
def priceExtended (r : ScanResult) : Bool :=
  r.balance_state == some "breakout_up" || r.balance_state == some "breakdown_down"

/-- The TRENDING trigger: aligned directional horizons, directional MA regime,
price extended beyond balance. -/
def trendingCond (r : ScanResult) : Bool :=
  htfAligned r &&
    (r.ma_regime.getD "Neutral" == "Bull" || r.ma_regime.getD "Neutral" == "Bear") &&
    priceExtended r

/-- `determine_primary_state` from `matrix_scanner/app.py`: the strict-priority
four-state classifier, returning `(state, direction_bias)`. -/
def determine_primary_state (r : ScanResult) : String × String :=
  let ma_regime := r.ma_regime.getD "Neutral"
  let signal := r.ma_signal.getD "None"
  -- State 1: STRESSED (highest priority - structural tension)
  if stressedCond r then
    let direction :=
      if r.balance_state == some "breakout_up" then "Bullish"
      else if r.balance_state == some "breakdown_down" then "Bearish"
      else "Neutral"
    ("STRESSED", direction)
  -- State 2: TRENDING (strong directional control)
  else if trendingCond r then
    let direction := if ma_regime == "Bull" then "Bullish" else "Bearish"
    ("TRENDING", direction)
  -- State 3: TRANSITION (regime shift in progress)
  else if (signal == "Long" || signal == "Short" || signal == "Exit Long" || signal == "Exit Short")
      || (!(r.horizon_long == r.horizon_mid) && priceExtended r) then
    let direction :=
      if signal == "Long" then "Bullish"
      else if signal == "Short" then "Bearish"
      else if ma_regime == "Bull" then "Bullish"
      else if ma_regime == "Bear" then "Bearish"
      else "Neutral"
    ("TRANSITION", direction)
  -- State 4: RANGE (default for balance + low volatility); the source's
  -- final fallback also returns ("RANGE", "Neutral")
  else ("RANGE", "Neutral")

/-- The concrete snapshot of the spec's example: fourth touch, long = mid =
Bullish, MA regime "Bull", balance state "breakout_up". -/
def c1Example : ScanResult :=
  ⟨some "Bullish", some "Bullish", some "Bull", some "None",
   some "breakout_up", false, true, some "Fourth touch"⟩

/-- C1: a snapshot satisfying both the STRESSED trigger and the TRENDING
trigger is classified STRESSED (never TRENDING); in particular the spec's
example snapshot classifies as STRESSED with bias Bullish. -/
theorem stressed_overrides_trending :
    (∀ r : ScanResult, stressedCond r = true → trendingCond r = true →
      (determine_primary_state r).1 = "STRESSED" ∧
      (determine_primary_state r).1 ≠ "TRENDING") ∧
    stressedCond c1Example = true ∧ trendingCond c1Example = true ∧
    determine_primary_state c1Example = ("STRESSED", "Bullish") := by
  refine ⟨fun r hs _ => ?_, by decide, by decide, by decide⟩
  simp [determine_primary_state, hs]

/-- Witness for C1: the example snapshot satisfies both triggers and the
theorem yields its STRESSED classification. -/
theorem stressed_overrides_trending_witness :
    (determine_primary_state c1Example).1 = "STRESSED" :=
  (stressed_overrides_trending.1 c1Example (by decide) (by decide)).1

/-!
## Drift detector (`matrix_scanner/regime_archive.py`, `detect_narrative_drift`;
`app/market/spine.py`, `calculate_drift`)

A snapshot row, for drift purposes, is the four categorical dimensions the
detector reads via `dict.get` (each possibly missing).
-/

structure DriftSnapshot where
  market_state : Option String
  market_friction : Option String
  balance_state : Option String
  volatility_state : Option String
deriving DecidableEq

/-- The change list accumulated by `detect_narrative_drift`: one labelled
entry per mismatching dimension, in source order. -/
def driftChanges (t y : DriftSnapshot) : List (String × String) :=
  (if t.market_state ≠ y.market_state then
    [("State shift", pyStr y.market_state ++ " → " ++ pyStr t.market_state)] else []) ++
  (if t.market_friction ≠ y.market_friction then
    [("Friction change", pyStr y.market_friction ++ " → " ++ pyStr t.market_friction)] else []) ++
  (if t.balance_state ≠ y.balance_state then
    [("Structure change", pyStr y.balance_state ++ " → " ++ pyStr t.balance_state)] else []) ++
  (if t.volatility_state ≠ y.volatility_state then
    [("Volatility regime change", pyStr y.volatility_state ++ " → " ++ pyStr t.volatility_state)] else [])

/-- The final severity classification of `detect_narrative_drift`. -/
def classifySeverity (changes : List (String × String)) :
    String × List (String × String) :=
  if changes.length ≥ 3 then ("MAJOR DRIFT", changes)
  else if changes.length = 2 then ("MODERATE DRIFT", changes)
  else if changes.length = 1 then ("MINOR DRIFT", changes)
  else ("STABLE", [])

/-- `detect_narrative_drift` from `matrix_scanner/regime_archive.py`:
field-by-field comparison of the four regime dimensions, returning
`(drift_level, changes_list)`. -/
def detect_narrative_drift (t y : DriftSnapshot) :
    String × List (String × String) :=
  classifySeverity (driftChanges t y)

/-- `calculate_drift` from `app/market/spine.py`: the database lookup of
yesterday's archive row is abstracted as the `Option DriftSnapshot` argument;
with no prior-day row the function returns the string "None", otherwise the
drift level of `detect_narrative_drift`. -/
def calculate_drift (today : DriftSnapshot) (yesterday : Option DriftSnapshot) :
    String :=
  match yesterday with
  | none => "None"
  | some y => (detect_narrative_drift today y).1

/-- Number of mismatching dimensions among the four compared fields. -/
def drift_change_count (t y : DriftSnapshot) : ℕ :=
  (if t.market_state ≠ y.market_state then 1 else 0) +
  (if t.market_friction ≠ y.market_friction then 1 else 0) +
  (if t.balance_state ≠ y.balance_state then 1 else 0) +
  (if t.volatility_state ≠ y.volatility_state then 1 else 0)

/-- The change list has exactly one entry per mismatching dimension. -/
theorem driftChanges_length (t y : DriftSnapshot) :
    (driftChanges t y).length = drift_change_count t y := by
  simp only [driftChanges, drift_change_count]
  split_ifs <;> simp

/-- The classifier keeps the change list except in the STABLE case. -/
theorem classifySeverity_snd_length (changes : List (String × String)) :
    (classifySeverity changes).2.length = changes.length := by
  simp only [classifySeverity]
  split_ifs with h1 h2 h3 <;> simp <;> omega

/-- The severity string returned by the detector, as a function of the
mismatch count. -/
theorem detect_fst_eq (t y : DriftSnapshot) :
    (detect_narrative_drift t y).1 =
      (if drift_change_count t y ≥ 3 then "MAJOR DRIFT"
       else if drift_change_count t y = 2 then "MODERATE DRIFT"
       else if drift_change_count t y = 1 then "MINOR DRIFT"
       else "STABLE") := by
  simp only [detect_narrative_drift, classifySeverity, driftChanges_length]
  split_ifs <;> rfl

/-- C5: the drift detector counts mismatches on exactly the four dimensions
and maps the count to severity (0 → STABLE with empty change list, 1 → MINOR,
2 → MODERATE, 3 or 4 → MAJOR); with no prior-day fingerprint the drift value
is "None", distinct from "STABLE". -/
theorem drift_severity_mapping :
    ∀ t y : DriftSnapshot,
      (detect_narrative_drift t y).2.length = drift_change_count t y ∧
      (drift_change_count t y = 0 → detect_narrative_drift t y = ("STABLE", [])) ∧
      (drift_change_count t y = 1 → (detect_narrative_drift t y).1 = "MINOR DRIFT") ∧
      (drift_change_count t y = 2 → (detect_narrative_drift t y).1 = "MODERATE DRIFT") ∧
      (drift_change_count t y = 3 ∨ drift_change_count t y = 4 →
        (detect_narrative_drift t y).1 = "MAJOR DRIFT") ∧
      (calculate_drift t none = "None" ∧ calculate_drift t none ≠ "STABLE") := by
  intro t y
  refine ⟨?_, ?_, ?_, ?_, ?_, by simp [calculate_drift]⟩
  · rw [detect_narrative_drift, classifySeverity_snd_length, driftChanges_length]
  · intro h0
    have hlen := driftChanges_length t y
    rw [h0] at hlen
    simp only [detect_narrative_drift, classifySeverity, hlen]
    norm_num
  · intro h1
    rw [detect_fst_eq, h1]
    norm_num
  · intro h2
    rw [detect_fst_eq, h2]
    norm_num
  · intro h34
    rcases h34 with h3 | h4
    · rw [detect_fst_eq, h3]; norm_num
    · rw [detect_fst_eq, h4]; norm_num

/-- Witness for C5: two snapshots differing in exactly state and friction
give MODERATE DRIFT; identical snapshots give STABLE with an empty list. -/
theorem drift_severity_mapping_witness :
    (detect_narrative_drift
      ⟨some "TRENDING", some "Low", some "in_balance", some "Normal"⟩
      ⟨some "RANGE", some "High", some "in_balance", some "Normal"⟩).1 = "MODERATE DRIFT" ∧
    detect_narrative_drift
      ⟨some "RANGE", some "High", some "in_balance", some "Normal"⟩
      ⟨some "RANGE", some "High", some "in_balance", some "Normal"⟩ = ("STABLE", []) := by
  constructor
  · exact ((drift_severity_mapping
      ⟨some "TRENDING", some "Low", some "in_balance", some "Normal"⟩
      ⟨some "RANGE", some "High", some "in_balance", some "Normal"⟩).2.2.2.1 (by decide))
  · exact ((drift_severity_mapping
      ⟨some "RANGE", some "High", some "in_balance", some "Normal"⟩
      ⟨some "RANGE", some "High", some "in_balance", some "Normal"⟩).2.1 (by decide))

/-!
## Agent profiles (`app/config.py`) and the base agent (`app/agents/base.py`)

The three profiles are Python dicts with a nested `trade_conditions` dict
whose keys differ per profile; `trade_conditions` is modelled with all keys
present and missing boolean keys equal to `false` (Python `.get` on a
missing key is falsy).
-/

structure TradeConditions where
  similarity_threshold : ℚ
  require_memory_support : Bool
  avoid_balance : Bool
  require_vol_compression : Bool
  allow_balance_if_breaking : Bool
  allow_disagreement : Bool
  size_down_in_major_drift : Bool
deriving DecidableEq

structure AgentProfile where
  name : String
  objective : String
  max_drawdown_pct : ℚ
  daily_loss_limit_pct : ℚ
  max_position_pct : ℚ
  max_positions : ℕ
  allowed_friction : List String
  allowed_drift : List String
  regime_preference : List String
  trade_conditions : TradeConditions
  cooldown_after_losses : Option ℕ
deriving DecidableEq

/-- `STEWARD_PROFILE` from `app/config.py`. -/
def STEWARD_PROFILE : AgentProfile :=
  ⟨"Steward", "Preserve capital, compound slowly",
   0.10, 0.01, 0.15, 2,
   ["Low", "Moderate"], ["None", "Minor"], ["TRENDING"],
   -- trade_conditions: similarity_threshold 0.60, require_memory_support,
   -- avoid_balance (the other boolean keys are absent in the source dict)
   ⟨0.60, true, true, false, false, false, false⟩,
   none⟩

/-- `OPERATOR_PROFILE` from `app/config.py`. -/
def OPERATOR_PROFILE : AgentProfile :=
  ⟨"Operator", "Exploit regime transitions",
   0.15, 0.02, 0.25, 4,
   ["Low", "Moderate"], ["None", "Minor", "Moderate"], ["TRANSITION", "TRENDING"],
   -- trade_conditions: similarity_threshold 0.50, require_vol_compression,
   -- allow_balance_if_breaking
   ⟨0.50, false, false, true, true, false, false⟩,
   some 2⟩

/-- `HUNTER_PROFILE` from `app/config.py`. -/
def HUNTER_PROFILE : AgentProfile :=
  ⟨"Hunter", "Maximize return velocity",
   0.20, 0.03, 0.35, 5,
   ["Low", "Moderate", "High"], ["None", "Minor", "Moderate", "Major"],
   ["STRESSED", "TRANSITION"],
   -- trade_conditions: similarity_threshold 0.40, allow_disagreement,
   -- size_down_in_major_drift
   ⟨0.40, false, false, false, false, true, true⟩,
   some 3⟩

/-- The market-context dict the agent layer reads (`build_market_context`
output plus the `drift` key the worker sets); fields the agents access via
`.get`, each possibly missing. -/
structure AgentMarket where
  state : Option String
  friction : Option String
  bias : Option String
  balance_state : Option String
  volatility_state : Option String
  drift : Option String
deriving DecidableEq

/-- `Agent.allowed` from `app/agents/base.py`: the shared hard drift/friction
gate.  `market.get("drift", "None")` is `drift.getD "None"`; the friction
check compares the raw (possibly missing) value against the profile list. -/
def agent_allowed (profile : AgentProfile) (market : AgentMarket) :
    Bool × Option String :=
  let drift := market.drift.getD "None"
  let frictionOk : Bool :=
    match market.friction with
    | some f => profile.allowed_friction.contains f
    | none => false
  if !profile.allowed_drift.contains drift then
    (false, some ("Narrative drift blocked: " ++ drift))
  else if !frictionOk then
    (false, some ("Market friction blocked: " ++ pyStr market.friction))
  else
    (true, none)

/-- The pre-clamp size computed by `Agent.size_position`: halve on
"MAJOR DRIFT" when the profile opts in, then multiply by 0.7 under High
friction. -/
def size_position_preclamp (profile : AgentProfile) (market : AgentMarket)
    (base_size : ℚ) : ℚ :=
  let size := base_size
  let size :=
    if market.drift == some "MAJOR DRIFT" &&
        profile.trade_conditions.size_down_in_major_drift then size * 0.5
    else size
  let size := if market.friction == some "High" then size * 0.7 else size
  size

/-- `Agent.size_position` from `app/agents/base.py`: the adjusted size,
clamped to the profile maximum. -/
def size_position (profile : AgentProfile) (market : AgentMarket)
    (base_size : ℚ) : ℚ :=
  min (size_position_preclamp profile market base_size) profile.max_position_pct

/-- C4: for every profile, market and base size the computed position size
never exceeds the profile's `max_position_pct`, and with MAJOR drift, the
size-down flag set and High friction the pre-clamp size is exactly
`base * 0.5 * 0.7`. -/
theorem size_position_bounded_and_multiplicative :
    (∀ (p : AgentProfile) (m : AgentMarket) (b : ℚ),
      size_position p m b ≤ p.max_position_pct) ∧
    (∀ (p : AgentProfile) (m : AgentMarket) (b : ℚ),
      m.drift = some "MAJOR DRIFT" →
      p.trade_conditions.size_down_in_major_drift = true →
      m.friction = some "High" →
      size_position_preclamp p m b = b * 0.5 * 0.7) := by
  constructor
  · intro p m b
    exact min_le_right _ _
  · intro p m b hd hf hh
    simp [size_position_preclamp, hd, hf, hh]

/-- Witness for C4: the Hunter profile (which opts into drift halving) in a
MAJOR-DRIFT, High-friction market, base 0.35: the pre-clamp size is
0.35·0.5·0.7 = 0.1225 and the clamped size stays ≤ 0.35. -/
theorem size_position_bounded_and_multiplicative_witness :
    size_position_preclamp HUNTER_PROFILE
        ⟨some "STRESSED", some "High", some "Neutral", none, none, some "MAJOR DRIFT"⟩
        0.35 = 0.35 * 0.5 * 0.7 ∧
    size_position HUNTER_PROFILE
        ⟨some "STRESSED", some "High", some "Neutral", none, none, some "MAJOR DRIFT"⟩
        0.35 ≤ HUNTER_PROFILE.max_position_pct := by
  constructor
  · exact size_position_bounded_and_multiplicative.2 HUNTER_PROFILE
      ⟨some "STRESSED", some "High", some "Neutral", none, none, some "MAJOR DRIFT"⟩
      0.35 rfl rfl rfl
  · exact size_position_bounded_and_multiplicative.1 HUNTER_PROFILE
      ⟨some "STRESSED", some "High", some "Neutral", none, none, some "MAJOR DRIFT"⟩
      0.35

/-- The detector's severity output is always one of the four drift strings. -/
theorem detect_fst_mem (t y : DriftSnapshot) :
    (detect_narrative_drift t y).1 = "STABLE" ∨
    (detect_narrative_drift t y).1 = "MINOR DRIFT" ∨
    (detect_narrative_drift t y).1 = "MODERATE DRIFT" ∨
    (detect_narrative_drift t y).1 = "MAJOR DRIFT" := by
  rw [detect_fst_eq]
  split_ifs <;> simp

/-- C6: none of the drift detector's outputs for a day with a prior-day
fingerprint ("STABLE", "MINOR DRIFT", "MODERATE DRIFT", "MAJOR DRIFT") is a
member of any shipped profile's `allowed_drift` set (which holds "None",
"Minor", "Moderate", "Major"), so the shared gate `agent_allowed` blocks every
such day for every agent; only the no-history value "None" passes the drift
check. -/
theorem drift_gate_blocks_every_severity :
    ∀ p : AgentProfile,
      (p = STEWARD_PROFILE ∨ p = OPERATOR_PROFILE ∨ p = HUNTER_PROFILE) →
      (∀ t y : DriftSnapshot,
        p.allowed_drift.contains (detect_narrative_drift t y).1 = false) ∧
      p.allowed_drift.contains "None" = true ∧
      (∀ (t : DriftSnapshot) (y : DriftSnapshot) (m : AgentMarket),
        m.drift = some (detect_narrative_drift t y).1 →
        agent_allowed p m =
          (false, some ("Narrative drift blocked: " ++ (detect_narrative_drift t y).1))) := by
  intro p hp
  have hmem : ∀ s : String,
      (s = "STABLE" ∨ s = "MINOR DRIFT" ∨ s = "MODERATE DRIFT" ∨ s = "MAJOR DRIFT") →
      p.allowed_drift.contains s = false := by
    intro s hs
    rcases hp with h | h | h <;> subst h <;>
      rcases hs with h | h | h | h <;> subst h <;> decide
  refine ⟨fun t y => hmem _ (detect_fst_mem t y), ?_, ?_⟩
  · rcases hp with h | h | h <;> subst h <;> decide
  · intro t y m hm
    have hc := hmem _ (detect_fst_mem t y)
    simp only [agent_allowed, hm, Option.getD_some, hc]
    rfl

/-- Witness for C6: identical snapshots yield severity "STABLE", and the
Steward gate blocks a market whose drift is that value. -/
theorem drift_gate_blocks_every_severity_witness :
    agent_allowed STEWARD_PROFILE
      ⟨some "TRENDING", some "Low", some "Bullish", none, none, some "STABLE"⟩ =
      (false, some "Narrative drift blocked: STABLE") := by
  have h := (drift_gate_blocks_every_severity STEWARD_PROFILE (Or.inl rfl)).2.2
    ⟨some "RANGE", some "High", some "in_balance", some "Normal"⟩
    ⟨some "RANGE", some "High", some "in_balance", some "Normal"⟩
    ⟨some "TRENDING", some "Low", some "Bullish", none, none, some "STABLE"⟩
    (by decide)
  simpa using h

/-!
## Similarity engine (`matrix_scanner/regime_archive.py`,
`build_regime_summary`; `app/market/similarity.py`, `get_similarity_stats`)

A record of the filtered query result (`query_similar_regimes` already
requires `forward_10d_return` to be present, so it is a plain rational here);
`resolution_type` may still be missing.
-/

structure RegimeRecord where
  resolution_type : Option String
  forward_10d_return : ℚ
deriving DecidableEq

/-- Insert into a sorted list (ascending). -/
def insertQ (x : ℚ) : List ℚ → List ℚ
  | [] => [x]
  | y :: ys => if x ≤ y then x :: y :: ys else y :: insertQ x ys

/-- Insertion sort, ascending. -/
def sortQ (l : List ℚ) : List ℚ :=
  l.foldr insertQ []

/-- Median of a list of rationals, as pandas computes it: middle element for
odd length, mean of the two middle elements for even length. -/
def listMedian (l : List ℚ) : ℚ :=
  let s := sortQ l
  let n := s.length
  if n = 0 then 0
  else if n % 2 = 1 then s.getD (n / 2) 0
  else (s.getD (n / 2 - 1) 0 + s.getD (n / 2) 0) / 2

/-- The summary dict built by `build_regime_summary` (the `confidence` key is
added later by `get_similarity_stats`). -/
structure RegimeSummary where
  total_occurrences : ℕ
  trend_continuation_pct : ℚ
  mean_reversion_pct : ℚ
  chop_pct : ℚ
  median_10d_return : ℚ
deriving DecidableEq

/-- `build_regime_summary` from `matrix_scanner/regime_archive.py`: `None`
for an empty frame, otherwise resolution-type percentage breakdown (rounded
to one decimal) and the rounded median forward return. -/
def build_regime_summary (df : List RegimeRecord) : Option RegimeSummary :=
  if df.isEmpty then none
  else
    let total := df.length
    let trend_count := (df.filter (fun r => r.resolution_type == some "Trend Continuation")).length
    let mean_reversion_count := (df.filter (fun r => r.resolution_type == some "Mean Reversion")).length
    let chop_count := (df.filter (fun r => r.resolution_type == some "Chop")).length
    let median_return := listMedian (df.map (·.forward_10d_return))
    some ⟨total,
      roundTo 1 ((trend_count : ℚ) / total * 100),
      roundTo 1 ((mean_reversion_count : ℚ) / total * 100),
      roundTo 1 ((chop_count : ℚ) / total * 100),
      roundTo 2 median_return⟩

/-- The stats dict returned by `get_similarity_stats`. -/
structure SimilarityStats where
  total_occurrences : ℕ
  trend_continuation_pct : ℚ
  mean_reversion_pct : ℚ
  chop_pct : ℚ
  median_10d_return : ℚ
  confidence : ℚ
deriving DecidableEq

/-- `get_similarity_stats` from `app/market/similarity.py`, modelled on the
already-filtered query result.  The `summary = None` branch cannot fire for a
non-empty frame (in the source it returns a reduced dict with
`total_occurrences = 0` and `confidence = 0.0`); it is rendered with zero
fields here. -/
def get_similarity_stats (df : List RegimeRecord) : SimilarityStats :=
  if df.isEmpty then
    ⟨0, 0, 0, 0, 0, 0⟩
  else
    match build_regime_summary df with
    | none => ⟨0, 0, 0, 0, 0, 0⟩
    | some s =>
      -- Confidence = occurrences / 50 (capped at 1.0)
      let confidence := min ((s.total_occurrences : ℚ) / 50) 1
      ⟨s.total_occurrences, s.trend_continuation_pct, s.mean_reversion_pct,
       s.chop_pct, s.median_10d_return, confidence⟩

/-- The confidence returned by `get_similarity_stats` is
`min(length / 50, 1)` for every query result. -/
theorem similarity_confidence_eq (df : List RegimeRecord) :
    (get_similarity_stats df).confidence = min ((df.length : ℚ) / 50) 1 := by
  rcases df with _ | ⟨r, rs⟩
  · simp [get_similarity_stats]
  · simp only [get_similarity_stats, build_regime_summary, List.isEmpty_cons,
      Bool.false_eq_true, if_false, ite_false]

/-- C7: similarity confidence equals `min(total_occurrences / 50, 1)`: it is
monotonically non-decreasing in the number of matching records, constant at 1
from 50 records on, 0.5 at 25 records, 1 at 75 records; an empty query result
yields confidence 0 and all percentage fields 0. -/
theorem similarity_confidence_properties :
    get_similarity_stats [] = ⟨0, 0, 0, 0, 0, 0⟩ ∧
    (∀ df : List RegimeRecord,
      (get_similarity_stats df).confidence = min ((df.length : ℚ) / 50) 1) ∧
    (∀ d1 d2 : List RegimeRecord, d1.length ≤ d2.length →
      (get_similarity_stats d1).confidence ≤ (get_similarity_stats d2).confidence) ∧
    (∀ df : List RegimeRecord, 50 ≤ df.length →
      (get_similarity_stats df).confidence = 1) ∧
    (∀ df : List RegimeRecord, df.length = 25 →
      (get_similarity_stats df).confidence = 1/2) ∧
    (∀ df : List RegimeRecord, df.length = 75 →
      (get_similarity_stats df).confidence = 1) := by
  refine ⟨by simp [get_similarity_stats], similarity_confidence_eq, ?_, ?_, ?_, ?_⟩
  · intro d1 d2 h
    rw [similarity_confidence_eq, similarity_confidence_eq]
    have hq : ((d1.length : ℚ)) ≤ (d2.length : ℚ) := by exact_mod_cast h
    exact min_le_min (by linarith) le_rfl
  · intro df h
    rw [similarity_confidence_eq]
    have h1 : (50 : ℚ) ≤ (df.length : ℚ) := by exact_mod_cast h
    have h2 : (1 : ℚ) ≤ (df.length : ℚ) / 50 := by linarith
    exact min_eq_right h2
  · intro df h
    rw [similarity_confidence_eq, h]
    norm_num
  · intro df h
    rw [similarity_confidence_eq, h]
    norm_num

/-- Witness for C7: 25 matching records give confidence 0.5 and 75 give 1. -/
theorem similarity_confidence_properties_witness :
    (get_similarity_stats (List.replicate 25 ⟨some "Chop", 0⟩)).confidence = 1/2 ∧
    (get_similarity_stats (List.replicate 75 ⟨some "Chop", 0⟩)).confidence = 1 := by
  constructor
  · exact similarity_confidence_properties.2.2.2.2.1 _ (by simp)
  · exact similarity_confidence_properties.2.2.2.2.2 _ (by simp)

/-!
## Confluence scorer (`matrix_scanner/app.py`, `WEIGHTED_CHECKLIST` and
`calculate_weighted_score`)

The checklist built by `build_corexia_checklist` is a dict with a subset of
the twelve known keys; `checklist.get(key)` on a missing key is falsy, so the
checklist is modelled as a total boolean valuation of key names.
-/

/-- `WEIGHTED_CHECKLIST` from `matrix_scanner/app.py`, in declaration order. -/
def WEIGHTED_CHECKLIST : List (String × ℚ) :=
  [("trendline_zone", 1.0),
   ("2b_or_pattern", 1.5),
   ("imbalance", 1.0),
   ("volume_anomaly", 1.0),
   ("proxy_memory", 1.0),
   ("intermarket_divergence", 0.5),
   ("sequence_level", 1.0),
   ("curvature", 0.5),
   ("balance_zone", 1.0),
   ("liquidity_grab", 1.0),
   ("htf_structure", 1.0),
   ("space_vacuum", 1.0)]

/-- `calculate_weighted_score` from `matrix_scanner/app.py`: returns
`(round(score, 2), round(max_score, 2), normalized)` with
`normalized = int(round(score / max_score * 12))` (0 when the maximum is 0,
which cannot happen for the fixed checklist). -/
def calculate_weighted_score (checklist : String → Bool) : ℚ × ℚ × ℤ :=
  let max_score := (WEIGHTED_CHECKLIST.map (·.2)).sum
  let score := (WEIGHTED_CHECKLIST.map
    (fun kw => if checklist kw.1 then kw.2 else 0)).sum
  let normalized := if max_score ≠ 0 then pyRoundInt (score / max_score * 12) else 0
  (roundTo 2 score, roundTo 2 max_score, normalized)

/-- `pyRoundInt` is the identity on integers. -/
theorem pyRoundInt_intCast (z : ℤ) : pyRoundInt (z : ℚ) = z := by
  simp [pyRoundInt]

/-- `roundTo d` is the identity on a rational that is an integer multiple of
`10 ^ (-d)`. -/
theorem roundTo_eq_self (d : ℕ) (q : ℚ) (z : ℤ) (h : q * 10 ^ d = (z : ℚ)) :
    roundTo d q = q := by
  have h10 : ((10 : ℚ) ^ d) ≠ 0 := by positivity
  rw [roundTo, h, pyRoundInt_intCast, ← h]
  field_simp

/-- Any subset sum of the checklist weights is an integer multiple of 1/2. -/
theorem checklist_score_half_integer (checklist : String → Bool) :
    ∃ z : ℤ, (WEIGHTED_CHECKLIST.map
      (fun kw => if checklist kw.1 then kw.2 else 0)).sum * 2 = (z : ℚ) := by
  have : ∀ l : List (String × ℚ),
      (∀ p ∈ l, ∃ w : ℤ, p.2 * 2 = (w : ℚ)) →
      ∃ z : ℤ, (l.map (fun kw => if checklist kw.1 then kw.2 else 0)).sum * 2 = (z : ℚ) := by
    intro l hl
    induction l with
    | nil => exact ⟨0, by simp⟩
    | cons p ps ih =>
      obtain ⟨w, hw⟩ := hl p (List.mem_cons_self p ps)
      obtain ⟨z, hz⟩ := ih (fun q hq => hl q (List.mem_cons_of_mem p hq))
      by_cases hc : checklist p.1
      · refine ⟨w + z, ?_⟩
        simp only [List.map_cons, List.sum_cons, if_pos hc]
        push_cast
        linarith [hw, hz]
      · refine ⟨z, ?_⟩
        simp only [List.map_cons, List.sum_cons, if_neg hc, zero_add]
        exact hz
  apply this
  intro p hp
  fin_cases hp <;>
    first
    | (refine ⟨2, ?_⟩; norm_num; done)
    | (refine ⟨3, ?_⟩; norm_num; done)
    | (refine ⟨1, ?_⟩; norm_num; done)

/-- C8 counterexample: the checklist weights sum to 11.5, not 12.0 as the
spec states (nine weights of 1.0, one of 1.5, two of 0.5). -/
theorem checklist_weights_sum_ne_twelve :
    (WEIGHTED_CHECKLIST.map (·.2)).sum = 11.5 ∧
    (WEIGHTED_CHECKLIST.map (·.2)).sum ≠ 12.0 := by
  constructor <;> norm_num [WEIGHTED_CHECKLIST]

/-- C8 (amended): the twelve checklist weights each lie in [0.5, 1.5] and sum
to 11.5, and for every checklist the returned normalized score equals
`round(weighted_score / weighted_max * 12)` computed from the returned score
and maximum. -/
theorem checklist_weights_and_normalization :
    WEIGHTED_CHECKLIST.length = 12 ∧
    (∀ p ∈ WEIGHTED_CHECKLIST, (0.5 : ℚ) ≤ p.2 ∧ p.2 ≤ 1.5) ∧
    (WEIGHTED_CHECKLIST.map (·.2)).sum = 11.5 ∧
    (∀ checklist : String → Bool,
      (calculate_weighted_score checklist).2.2 =
        pyRoundInt ((calculate_weighted_score checklist).1 /
          (calculate_weighted_score checklist).2.1 * 12)) := by
  refine ⟨by decide, ?_, by norm_num [WEIGHTED_CHECKLIST], ?_⟩
  · intro p hp
    fin_cases hp <;> norm_num
  · intro checklist
    obtain ⟨z, hz⟩ := checklist_score_half_integer checklist
    have hscore : roundTo 2 ((WEIGHTED_CHECKLIST.map
        (fun kw => if checklist kw.1 then kw.2 else 0)).sum) =
        (WEIGHTED_CHECKLIST.map (fun kw => if checklist kw.1 then kw.2 else 0)).sum := by
      apply roundTo_eq_self 2 _ (z * 50)
      push_cast
      nlinarith [hz]
    have hmax : (WEIGHTED_CHECKLIST.map (·.2)).sum = (11.5 : ℚ) := by
      norm_num [WEIGHTED_CHECKLIST]
    have hmaxr : roundTo 2 ((WEIGHTED_CHECKLIST.map (·.2)).sum) =
        (WEIGHTED_CHECKLIST.map (·.2)).sum := by
      rw [hmax]
      apply roundTo_eq_self 2 _ 1150
      norm_num
    simp only [calculate_weighted_score, hscore, hmaxr]
    rw [hmax]
    norm_num

/-- Witness for C8: the all-false checklist scores 0 with normalized score
0, and the returned maximum is 11.5. -/
theorem checklist_weights_and_normalization_witness :
    calculate_weighted_score (fun _ => false) = (0, 11.5, 0) ∧
    (calculate_weighted_score (fun _ => false)).2.2 =
      pyRoundInt ((calculate_weighted_score (fun _ => false)).1 /
        (calculate_weighted_score (fun _ => false)).2.1 * 12) := by
  constructor
  · norm_num [calculate_weighted_score, WEIGHTED_CHECKLIST, roundTo, pyRoundInt]
  · exact checklist_weights_and_normalization.2.2.2 (fun _ => false)

/-!
## Agent decisions (`app/agents/steward.py`, `app/agents/hunter.py`)
-/

/-- The decision dict agents build: action, symbol, size, rationale,
confidence. -/
structure Decision where
  action : String
  symbol : String
  size_pct : ℚ
  rationale : String
  confidence : ℚ
deriving DecidableEq

/-- `StewardAgent.decide` from `app/agents/steward.py`. -/
def steward_decide (profile : AgentProfile) (market : AgentMarket)
    (similarity : SimilarityStats) : Option Decision × Option String :=
  let state := market.state
  let bias := market.bias
  let confidence := similarity.confidence
  let trend_pct := similarity.trend_continuation_pct
  -- Similarity threshold
  if confidence < profile.trade_conditions.similarity_threshold then
    (none, some ("Historical support insufficient: " ++ formatPct1 confidence))
  -- State requirements
  else if !(state == some "TRENDING") then
    (none, some ("State not trending: " ++ pyStr state))
  -- Must favor trend continuation
  else if trend_pct < 50 then
    (none, some ("Trend continuation weak: " ++ qRepr1 trend_pct ++ "%"))
  -- Determine direction
  else if !(bias == some "Bullish" || bias == some "Bearish") then
    (none, some "Directional bias unclear")
  else
    let side := if bias == some "Bullish" then "LONG" else "SHORT"
    let size := size_position profile market profile.max_position_pct
    (some ⟨side, "SPY", size,
      "Trending " ++ strLower (pyStr bias) ++ " with " ++ formatPct0 confidence ++
        " historical support",
      confidence⟩, none)

/-- `HunterAgent.decide` from `app/agents/hunter.py`. -/
def hunter_decide (profile : AgentProfile) (market : AgentMarket)
    (similarity : SimilarityStats) : Option Decision × Option String :=
  let state := market.state
  let volatility := market.volatility_state
  let bias := market.bias
  let confidence := similarity.confidence
  -- Similarity threshold (lowest of all agents)
  if confidence < profile.trade_conditions.similarity_threshold then
    (none, some ("Even Hunter requires minimum similarity: " ++ formatPct1 confidence))
  else
    -- Volatility preference
    let volatility_trigger :=
      volatility == some "Compressed" || state == some "STRESSED" || state == some "TRANSITION"
    if !volatility_trigger then
      (none, some ("Volatility state not suitable for Hunter: " ++ pyStr volatility))
    -- Direction (Hunter can trade neutral environments aggressively)
    else if bias == some "Neutral" && !(state == some "STRESSED") then
      (none, some "No directional bias in non-stressed environment")
    else
      let side :=
        if bias == some "Bullish" then "LONG"
        else if bias == some "Bearish" then "SHORT"
        else "FLAT"
      if side == "FLAT" then
        (none, some "No directional conviction")
      else
        let size := size_position profile market profile.max_position_pct
        (some ⟨side, "SPY", size,
          "Volatility play " ++ strLower (pyStr bias) ++ " in " ++ pyStr state ++ " regime",
          confidence⟩, none)

/-- The C10 scenario market: TRENDING, Low friction, Bullish bias, no drift
history. -/
def c10Market : AgentMarket :=
  ⟨some "TRENDING", some "Low", some "Bullish", none, none, some "None"⟩

/-- The C10 similarity stats with confidence 0.65 and 60% trend
continuation. -/
def c10Sim65 : SimilarityStats :=
  ⟨30, 60, 20, 20, 1, 0.65⟩

/-- The same stats with confidence 0.55. -/
def c10Sim55 : SimilarityStats :=
  ⟨30, 60, 20, 20, 1, 0.55⟩

/-- C10: with the Steward profile in the TRENDING / Low-friction / Bullish
snapshot, confidence 0.65 and 60% trend continuation yield a LONG decision
of size 0.15 ≤ max_position_pct with confidence 0.65; confidence 0.55 is
blocked with "Historical support insufficient: 55.0%". -/
theorem steward_scenario :
    steward_decide STEWARD_PROFILE c10Market c10Sim65 =
      (some ⟨"LONG", "SPY", 0.15,
        "Trending bullish with 65% historical support", 0.65⟩, none) ∧
    (0.15 : ℚ) ≤ STEWARD_PROFILE.max_position_pct ∧
    steward_decide STEWARD_PROFILE c10Market c10Sim55 =
      (none, some "Historical support insufficient: 55.0%") := by
  have e1 : formatPct1 0.55 = "55.0%" := by
    have h : (0.55 : ℚ) * 1000 = ((550 : ℤ) : ℚ) := by norm_num
    rw [formatPct1, h, pyRoundInt_intCast]
    decide
  have e0 : formatPct0 0.65 = "65%" := by
    have h : (0.65 : ℚ) * 100 = ((65 : ℤ) : ℚ) := by norm_num
    rw [formatPct0, h, pyRoundInt_intCast]
    decide
  have hsize : size_position STEWARD_PROFILE c10Market 0.15 = 0.15 := by
    have h1 : (c10Market.drift == some "MAJOR DRIFT") = false := by decide
    have h2 : (c10Market.friction == some "High") = false := by decide
    rw [size_position, size_position_preclamp, h1, h2]
    simp [STEWARD_PROFILE]
  refine ⟨?_, by norm_num [STEWARD_PROFILE], ?_⟩
  · simp only [steward_decide, c10Market, c10Sim65, STEWARD_PROFILE] at hsize ⊢
    rw [if_neg (by norm_num), if_neg (by decide), if_neg (by norm_num),
      if_neg (by decide)]
    simp only [hsize]
    refine congrArg (fun d => (some d, (none : Option String))) ?_
    have hlow : strLower (pyStr (some "Bullish")) = "bullish" := by decide
    have hb : ((some "Bullish" : Option String) == some "Bullish") = true := by decide
    simp only [hb, if_true, hlow, e0]
    have hr : "Trending " ++ "bullish" ++ " with " ++ "65%" ++ " historical support" =
        "Trending bullish with 65% historical support" := by decide
    rw [hr]
  · simp only [steward_decide, c10Market, c10Sim55, STEWARD_PROFILE]
    rw [if_pos (by norm_num), e1]
    decide

/-- The C9 failing input: STRESSED state, Neutral bias, compressed
volatility, High friction (all of which Hunter tolerates). -/
def c9Market : AgentMarket :=
  ⟨some "STRESSED", some "High", some "Neutral", none, some "Compressed", some "None"⟩

/-- Similarity stats above Hunter's 0.40 threshold. -/
def c9Sim : SimilarityStats :=
  ⟨25, 40, 30, 30, 0, 0.5⟩

/-- C9: in a STRESSED market with Neutral bias the Hunter's `decide` passes
the Neutral-bias exemption but then falls through to `side = "FLAT"` and
always returns no decision — for every similarity input the decision is
`none`, and above the threshold the block reason is "No directional
conviction".  The spec (and the source's own comment "Hunter can trade
neutral environments aggressively") say a directional decision should be
possible here. -/
theorem hunter_neutral_stressed_never_directional :
    (∀ s : SimilarityStats, (hunter_decide HUNTER_PROFILE c9Market s).1 = none) ∧
    ¬ (c9Sim.confidence < HUNTER_PROFILE.trade_conditions.similarity_threshold) ∧
    hunter_decide HUNTER_PROFILE c9Market c9Sim =
      (none, some "No directional conviction") := by
  have hth : ∀ s : SimilarityStats,
      ¬ (s.confidence < HUNTER_PROFILE.trade_conditions.similarity_threshold) →
      hunter_decide HUNTER_PROFILE c9Market s =
        (none, some "No directional conviction") := by
    intro s h
    simp only [hunter_decide, if_neg h, c9Market]
    simp
  have hc : ¬ ((c9Sim.confidence : ℚ) < HUNTER_PROFILE.trade_conditions.similarity_threshold) := by
    simp only [c9Sim, HUNTER_PROFILE]
    norm_num
  refine ⟨?_, hc, hth c9Sim hc⟩
  intro s
  by_cases h : s.confidence < HUNTER_PROFILE.trade_conditions.similarity_threshold
  · simp only [hunter_decide, if_pos h]
  · rw [hth s h]

/-!
## Risk gate (`app/execution/risk.py`, `risk_check`)

The database state the gate queries is passed explicitly: the number of open
positions for the agent, today's performance row (absent when no row exists,
with each numeric field read via `.get(…, 0)`), and the closed trades ordered
most-recent-first (each trade's `pnl` read via `.get(…, 0)`); the source
limits that query to `cooldown` rows, modelled by `List.take`.
-/

structure PerfRow where
  drawdown : Option ℚ
  daily_pnl : Option ℚ
deriving DecidableEq

/-- `risk_check` from `app/execution/risk.py`: the five hard checks in source
order, first failure winning; formatted reason strings as in the source. -/
def risk_check (agent_profile : AgentProfile) (trade : Decision)
    (open_positions : ℕ) (perf : Option PerfRow) (closed_trades : List (Option ℚ)) :
    Bool × String :=
  -- Position size check
  if trade.size_pct > agent_profile.max_position_pct then
    (false, "Position size " ++ formatPct1 trade.size_pct ++ " exceeds max " ++
      formatPct1 agent_profile.max_position_pct)
  -- Check max open positions
  else if open_positions ≥ agent_profile.max_positions then
    (false, "Max positions reached: " ++ toString open_positions ++ "/" ++
      toString agent_profile.max_positions)
  -- Check drawdown
  else if (match perf with
           | some p => decide ((p.drawdown.getD 0) ≥ agent_profile.max_drawdown_pct)
           | none => false) then
    (false, "Max drawdown breached: " ++
      formatPct1 ((perf.map (fun p => p.drawdown.getD 0)).getD 0))
  -- Check daily loss limit
  else if (match perf with
           | some p => decide ((p.daily_pnl.getD 0) ≤ -agent_profile.daily_loss_limit_pct)
           | none => false) then
    (false, "Daily loss limit hit: " ++
      formatPct1 ((perf.map (fun p => p.daily_pnl.getD 0)).getD 0))
  -- Check loss cooldown
  else
    match agent_profile.cooldown_after_losses with
    | some cooldown =>
      if cooldown ≠ 0 then
        let recent_trades := closed_trades.take cooldown
        if recent_trades.length ≥ cooldown &&
            recent_trades.all (fun t => decide ((t.getD 0) < 0)) then
          (false, "Cooldown active after " ++ toString cooldown ++ " consecutive losses")
        else (true, "Passed")
      else (true, "Passed")
    | none => (true, "Passed")

/-- C3: the risk gate evaluates its five checks in the fixed source order and
returns the reason of the first failing check: the size check dominates all
others (in particular a decision violating both the size and drawdown limits
reports the size violation), each later check fires only when all earlier
ones pass, and when no check fails the verdict is exactly `(true, "Passed")`. -/
theorem risk_check_first_failure_order :
    ∀ (p : AgentProfile) (t : Decision) (n : ℕ) (perf : Option PerfRow)
      (closed : List (Option ℚ)),
      (t.size_pct > p.max_position_pct →
        risk_check p t n perf closed =
          (false, "Position size " ++ formatPct1 t.size_pct ++ " exceeds max " ++
            formatPct1 p.max_position_pct)) ∧
      (t.size_pct > p.max_position_pct →
        (match perf with
         | some row => (row.drawdown.getD 0) ≥ p.max_drawdown_pct
         | none => False) →
        risk_check p t n perf closed =
          (false, "Position size " ++ formatPct1 t.size_pct ++ " exceeds max " ++
            formatPct1 p.max_position_pct)) ∧
      (¬ (t.size_pct > p.max_position_pct) → n ≥ p.max_positions →
        risk_check p t n perf closed =
          (false, "Max positions reached: " ++ toString n ++ "/" ++
            toString p.max_positions)) ∧
      (¬ (t.size_pct > p.max_position_pct) → ¬ (n ≥ p.max_positions) →
        (match perf with
         | some row => (row.drawdown.getD 0) ≥ p.max_drawdown_pct
         | none => False) →
        risk_check p t n perf closed =
          (false, "Max drawdown breached: " ++
            formatPct1 ((perf.map (fun row => row.drawdown.getD 0)).getD 0))) ∧
      (¬ (t.size_pct > p.max_position_pct) → ¬ (n ≥ p.max_positions) →
        ¬ (match perf with
           | some row => (row.drawdown.getD 0) ≥ p.max_drawdown_pct
           | none => False) →
        (match perf with
         | some row => (row.daily_pnl.getD 0) ≤ -p.daily_loss_limit_pct
         | none => False) →
        risk_check p t n perf closed =
          (false, "Daily loss limit hit: " ++
            formatPct1 ((perf.map (fun row => row.daily_pnl.getD 0)).getD 0))) ∧
      (¬ (t.size_pct > p.max_position_pct) → ¬ (n ≥ p.max_positions) →
        ¬ (match perf with
           | some row => (row.drawdown.getD 0) ≥ p.max_drawdown_pct
           | none => False) →
        ¬ (match perf with
           | some row => (row.daily_pnl.getD 0) ≤ -p.daily_loss_limit_pct
           | none => False) →
        (∀ c, p.cooldown_after_losses = some c → c ≠ 0 →
          ¬ ((closed.take c).length ≥ c ∧ ∀ q ∈ closed.take c, (q.getD 0) < 0)) →
        risk_check p t n perf closed = (true, "Passed")) := by
  intro p t n perf closed
  refine ⟨?_, ?_, ?_, ?_, ?_, ?_⟩
  · intro h1
    simp only [risk_check, if_pos h1]
  · intro h1 _
    simp only [risk_check, if_pos h1]
  · intro h1 h2
    simp only [risk_check, if_neg h1, if_pos h2]
  · intro h1 h2 h3
    rcases perf with _ | row
    · exact h3.elim
    · simp only [risk_check, if_neg h1, if_neg h2, Option.map_some, Option.getD_some]
      rw [if_pos (by exact decide_eq_true h3)]
  · intro h1 h2 h3 h4
    rcases perf with _ | row
    · exact h4.elim
    · simp only [risk_check, if_neg h1, if_neg h2, Option.map_some, Option.getD_some]
      rw [if_neg ?_, if_pos (by exact decide_eq_true h4)]
      simp only [decide_eq_true_eq]
      exact h3
  · intro h1 h2 h3 h4 h5
    have step : ∀ l : List (Option ℚ),
        (∀ c, p.cooldown_after_losses = some c → c ≠ 0 →
          ¬ ((l.take c).length ≥ c ∧ ∀ q ∈ l.take c, (q.getD 0) < 0)) →
        (match p.cooldown_after_losses with
         | some cooldown =>
           if cooldown ≠ 0 then
             let recent_trades := l.take cooldown
             if recent_trades.length ≥ cooldown &&
                 recent_trades.all (fun t => decide ((t.getD 0) < 0)) then
               (false, "Cooldown active after " ++ toString cooldown ++ " consecutive losses")
             else ((true : Bool), "Passed")
           else (true, "Passed")
         | none => (true, "Passed")) = ((true : Bool), "Passed") := by
      intro l hl
      rcases hcd : p.cooldown_after_losses with _ | c
      · rfl
      · dsimp only
        by_cases hc0 : c = 0
        · rw [if_neg (by simp [hc0])]
        · rw [if_pos hc0]
          have hcond : (decide ((l.take c).length ≥ c) &&
              (l.take c).all (fun t => decide ((t.getD 0) < 0))) = false := by
            rw [Bool.eq_false_iff]
            intro hx
            rw [Bool.and_eq_true, decide_eq_true_eq, List.all_eq_true] at hx
            exact hl c hcd hc0 ⟨hx.1, fun q hq => by
              have := hx.2 q hq
              simpa using this⟩
          simp only [hcond, Bool.false_eq_true, if_false]
    rcases perf with _ | row
    · simp only [risk_check, if_neg h1, if_neg h2]
      exact step closed h5
    · simp only [risk_check, if_neg h1, if_neg h2]
      rw [if_neg ?_, if_neg ?_]
      · exact step closed h5
      · simp only [decide_eq_true_eq]
        exact h4
      · simp only [decide_eq_true_eq]
        exact h3

/-- Witness for C3: the Steward profile with an in-limit trade, no open
positions, no performance row and no closed trades passes with exactly
`(true, "Passed")`. -/
theorem risk_check_first_failure_order_witness :
    risk_check STEWARD_PROFILE ⟨"LONG", "SPY", 0.15, "r", 0.65⟩ 0 none [] =
      (true, "Passed") := by
  refine (risk_check_first_failure_order STEWARD_PROFILE
    ⟨"LONG", "SPY", 0.15, "r", 0.65⟩ 0 none []).2.2.2.2.2 ?_ ?_ ?_ ?_ ?_
  · norm_num [STEWARD_PROFILE]
  · norm_num [STEWARD_PROFILE]
  · simp
  · simp
  · intro c hc
    simp [STEWARD_PROFILE] at hc

/-!
## Cycle orchestrator (`app/worker.py`, `run_agent_cycle`)

The collaborator calls (market build, drift, similarity, the agent's
`allowed`/`interpret`/`decide`, the risk gate, the broker) are abstracted by
their results, passed as inputs; the orchestrator's control flow and its
decision-log writes are mirrored exactly.  `log_decision` appends one record
to the returned log list; the executed branch additionally records one
position row (a separate `agent_positions` insert in the source, not a
decision-log record).
-/

/-- One decision-log record, with the fields `run_agent_cycle` sets on each
branch. -/
structure DecisionLog where
  interpretation : String
  blocked_reason : Option String
  intent : String
  proposed_action : Option String
  confidence : ℚ
  size_pct : Option ℚ
deriving DecidableEq

/-- Python truthiness of an optional block-reason string. -/
def optTruthy (o : Option String) : Bool :=
  match o with
  | none => false
  | some s => !(s == "")

/-- `run_agent_cycle` from `app/worker.py`, as a function of the abstracted
collaborator results: the `(allowed, block_reason)` pair from the gate, the
agent's interpretation text, the `(decision, decision_block)` pair from
`decide`, the `(risk_ok, risk_reason)` verdict, and the similarity
confidence.  Returns the decision-log records written and the position rows
inserted. -/
def run_agent_cycle (allowedRes : Bool × Option String) (interp : String)
    (decideRes : Option Decision × Option String) (riskRes : Bool × String)
    (sim_confidence : ℚ) : List DecisionLog × List Decision :=
  let (allowed, block_reason) := allowedRes
  let (decision, decision_block) := decideRes
  if !allowed then
    ([⟨interp, block_reason, "Blocked by drift/friction gate", none, 0.0, none⟩], [])
  else if optTruthy decision_block then
    ([⟨interp, block_reason, "Blocked by decision logic", decision_block,
       sim_confidence, none⟩], [])
  else
    match decision with
    | none =>
      ([⟨interp, block_reason, "Abstained", some "FLAT", sim_confidence, none⟩], [])
    | some d =>
      let (risk_ok, risk_reason) := riskRes
      if !risk_ok then
        ([⟨interp, some risk_reason, d.rationale,
           some (d.action ++ " " ++ d.symbol), d.confidence, some d.size_pct⟩], [])
      else
        ([⟨interp, block_reason, d.rationale,
           some (d.action ++ " " ++ d.symbol), d.confidence, some d.size_pct⟩], [d])

/-- C2: every terminal branch of the orchestrator writes exactly one
decision-log record — blocked by the drift/friction gate, blocked by agent
decision logic, voluntary abstain, blocked by the risk gate, and executed
all log once, never zero times and never twice. -/
theorem cycle_logs_exactly_once :
    ∀ (allowedRes : Bool × Option String) (interp : String)
      (decideRes : Option Decision × Option String) (riskRes : Bool × String)
      (conf : ℚ),
      (run_agent_cycle allowedRes interp decideRes riskRes conf).1.length = 1 := by
  intro ⟨allowed, block_reason⟩ interp ⟨decision, decision_block⟩ ⟨risk_ok, risk_reason⟩ conf
  rcases allowed <;> rcases decision <;> rcases risk_ok <;>
    simp only [run_agent_cycle, Bool.not_true, Bool.not_false, if_true, if_false,
      ite_true, ite_false, Bool.false_eq_true, Bool.true_eq_false] <;>
    rcases hodb : optTruthy decision_block <;>
    simp [hodb]
